import Mathlib

/-!
Shallow embedding of the ai-image-detector relay server.

The repository consists of three near-duplicate Express servers:
`src/server.js` (env-credential variant, no persistence),
`src/unnamed/part_000` (env-credential variant with Postgres history),
`src/unnamed/part_001` (pre-provisioned-token variant).

The embedding below models the richest variant, `src/unnamed/part_000`,
for the detection path (its `/api/detect` handler is a superset of
`src/server.js`: the two agree on auth state, refresh, the 401 retry and
all response shaping; `part_000` additionally calls `saveScan`).  The
`part_001`-specific handlers (`POST /api/token`, `POST /api/login`, its
`GET /api/status`) are modelled separately.

External library behaviour is embedded at the usual level for such
code: `axios` throws on non-2xx responses and the thrown error carries
`response.status` / `response.data.message`; a `pg` query either
resolves or throws; the SQL `SELECT ... ORDER BY created_at DESC LIMIT
100` denotes sorting the table newest-first and taking 100 rows.

State mutation (`storedToken`, `tokenFetchedAt`) is passed explicitly,
and each outbound side effect (login POST, detection POST with its full
multipart payload, history INSERT with its parameter row) is recorded
in an event trace, so that the retry / exactly-once claims become
statements about the produced trace.
-/

namespace AIDetector

/-- A JavaScript value as held by the mutable token variable: `null`
(initial value), `undefined` (e.g. a missing response field), or a
string. -/
inductive JsVal where
  | null
  | undef
  | str (s : String)
deriving DecidableEq

/-- JavaScript truthiness on `JsVal`: `null`, `undefined` and the empty
string are falsy (`!storedToken` in the source). -/
def JsVal.truthy : JsVal → Bool
  | .str s => !s.isEmpty
  | _ => false

/-- JavaScript `a || b` on token values (`res.data.access_token ||
res.data.token`): returns `b` whenever `a` is falsy, whatever `b` is. -/
def jsOr (a b : JsVal) : JsVal := if a.truthy then a else b

/-- JavaScript `a || b` for `err.response?.data?.message || err.message`:
the optional data message wins unless absent or empty. -/
def jsOrStr (a : Option String) (b : String) : String :=
  match a with
  | some s => if s.isEmpty then b else s
  | none => b

/-- JavaScript `err.response?.status || 500`. -/
def jsOrStatus (s : Option Nat) : Nat :=
  match s with
  | some n => if n = 0 then 500 else n
  | none => 500

/-- JavaScript `width || null` as used by `saveScan`: a missing (or
zero, zero being falsy) numeric becomes SQL NULL. -/
def jsNumOrNull : Option Int → Option Int
  | some n => if n = 0 then none else some n
  | none => none

/-- Truthiness of an optional environment / request-body string
(`!email`, `!apiKey`, `!token` checks). -/
def envTruthy : Option String → Bool
  | some s => !s.isEmpty
  | none => false

/-- The process-wide credential store: the module-level variables
`storedToken` and `tokenFetchedAt` of `server.js` / `part_000`. -/
structure AuthState where
  storedToken : JsVal
  tokenFetchedAt : Option Int
deriving DecidableEq

/-- `let storedToken = null; let tokenFetchedAt = null;` -/
def initialAuthState : AuthState := ⟨.null, none⟩

/-- `const TOKEN_TTL_MS = 47 * 60 * 60 * 1000;` -/
def TOKEN_TTL_MS : Int := 47 * 60 * 60 * 1000

/-- The long-lived configuration: `process.env.COPYLEAKS_EMAIL` and
`process.env.COPYLEAKS_API_KEY`. -/
structure Env where
  email : Option String
  apiKey : Option String
deriving DecidableEq

/-- `Boolean(process.env.COPYLEAKS_EMAIL && process.env.COPYLEAKS_API_KEY)`. -/
def Env.configured (e : Env) : Bool := envTruthy e.email && envTruthy e.apiKey

/-- Body of a 2xx response from the upstream identity endpoint; either
token field may be absent (`undefined`). -/
structure LoginBody where
  access_token : JsVal
  token : JsVal
deriving DecidableEq

/-- `req.file` as produced by multer memory storage. -/
structure UploadedFile where
  buffer : List Nat
  originalname : String
  mimetype : String
deriving DecidableEq

/-- The outbound multipart payload of one detection POST, together with
the scan id in the URL and the bearer token in the header. -/
structure Payload where
  imageBytes : List Nat
  filename : String
  contentType : String
  sandbox : String
  model : String
  scanId : String
  bearer : JsVal
deriving DecidableEq

/-- The parameter row of the `INSERT INTO scans` issued by `saveScan`
(after its `width || null` / `height || null` coercions). -/
structure SaveArgs where
  scanId : String
  filename : String
  aiPct : Int
  humanPct : Int
  width : Option Int
  height : Option Int
  sandbox : Bool
deriving DecidableEq

/-- Observable outbound side effects of one request. -/
inductive Event where
  | loginCall
  | detectCall (p : Payload)
  | saveCall (r : SaveArgs)
deriving DecidableEq

/-- `data.summary` of the upstream detection response. -/
structure Summary where
  ai : Option Int
  human : Option Int
deriving DecidableEq

/-- `data.imageInfo` of the upstream detection response. -/
structure ImageInfo where
  width : Option Int
  height : Option Int
deriving DecidableEq

/-- The upstream detection response body (only the fields the system
reads). -/
structure DetectBody where
  summary : Option Summary
  imageInfo : Option ImageInfo
deriving DecidableEq

/-- Outcome of one outbound detection POST: a 2xx body, or a thrown
axios error carrying `response?.status`, `response?.data?.message` and
`message`. -/
inductive UpstreamResp where
  | ok (body : DetectBody)
  | err (status : Option Nat) (dataMessage : Option String) (errMessage : String)
deriving DecidableEq

/-- An HTTP response body sent to the client on the detect route. -/
inductive RespBody where
  | json (d : DetectBody)
  | errorMsg (msg : String)
deriving DecidableEq

/-- An HTTP response on the detect route. -/
structure HttpResp where
  status : Nat
  body : RespBody
deriving DecidableEq

/-- The client request to `/api/detect`: the uploaded file (if any) and
the raw `sandbox` form field. -/
structure Request where
  file : Option UploadedFile
  sandboxField : Option String
deriving DecidableEq

/-- The environment of one `/api/detect` call: the clock, the env vars,
the answers the upstream services and the database would give, and the
freshly generated scan id.  `login1` answers the login POST issued by
`refreshIfNeeded` (if any); `login2` answers the re-authentication
login POST after a 401 (if any); `first` / `retry` answer the two
possible detection POSTs; `saveOk` tells whether the history INSERT
resolves or throws with message `saveErrMsg`. -/
structure World where
  now : Int
  env : Env
  login1 : Option LoginBody
  login2 : Option LoginBody
  first : UpstreamResp
  retry : UpstreamResp
  dbPresent : Bool
  saveOk : Bool
  saveErrMsg : String
  scanId : String
deriving DecidableEq

/-- `authenticate()` of `server.js` / `part_000`: no-op when the env
configuration is missing; on an upstream 2xx it overwrites both
`storedToken` (`access_token || token`) and `tokenFetchedAt`
(`Date.now()`); on a thrown error (network failure or non-2xx) it only
logs.  `login = none` encodes the thrown error.  The returned list
records whether the upstream login POST was actually issued. -/
def authenticate (env : Env) (login : Option LoginBody) (now : Int) (st : AuthState) :
    AuthState × List Event :=
  if env.configured then
    match login with
    | none => (st, [.loginCall])
    | some body => (⟨jsOr body.access_token body.token, some now⟩, [.loginCall])
  else (st, [])

/-- The staleness test of `refreshIfNeeded()`:
`!storedToken || Date.now() - tokenFetchedAt >= TOKEN_TTL_MS`
(JavaScript coerces a `null` `tokenFetchedAt` to `0`). -/
def refreshNeeded (st : AuthState) (now : Int) : Bool :=
  !st.storedToken.truthy || decide (now - st.tokenFetchedAt.getD 0 ≥ TOKEN_TTL_MS)

/-- `const aiPct = data.summary?.ai ?? 0;` -/
def extractAiPct (d : DetectBody) : Int := (d.summary.bind Summary.ai).getD 0

/-- `const humanPct = data.summary?.human ?? (100 - aiPct);` -/
def extractHumanPct (d : DetectBody) : Int :=
  (d.summary.bind Summary.human).getD (100 - extractAiPct d)

/-- The row `saveScan` binds into its INSERT for a given upstream body
(`width`/`height` pass through `saveScan`'s `|| null`). -/
def savedRow (w : World) (file : UploadedFile) (sandbox : Bool) (d : DetectBody) : SaveArgs :=
  ⟨w.scanId, file.originalname, extractAiPct d, extractHumanPct d,
   jsNumOrNull (d.imageInfo.bind ImageInfo.width),
   jsNumOrNull (d.imageInfo.bind ImageInfo.height), sandbox⟩

/-- The multipart payload built by the handler: image buffer, filename,
content type, `String(sandbox)`, the fixed model identifier, the scan
id in the URL and the bearer header. -/
def mkPayload (file : UploadedFile) (sandbox : Bool) (scanId : String) (tok : JsVal) : Payload :=
  ⟨file.buffer, file.originalname, file.mimetype,
   if sandbox then "true" else "false", "ai-image-1-ultra", scanId, tok⟩

/-- The tail of the handler after a 2xx detection response (either
attempt): extract the percentages, `await saveScan(...)`, then
`res.json(data)`.  With the database absent `saveScan` returns without
touching it.  With the database present the INSERT is attempted; if it
throws, the exception escapes to the enclosing catch, whose
`err.response?.status` is `undefined` (not 401), so the client gets
`500 {error: err.message}` instead of the detection payload. -/
def successResponse (w : World) (file : UploadedFile) (sandbox : Bool) (d : DetectBody) :
    HttpResp × List Event :=
  if w.dbPresent then
    (if w.saveOk then ⟨200, .json d⟩ else ⟨500, .errorMsg w.saveErrMsg⟩,
     [.saveCall (savedRow w file sandbox d)])
  else (⟨200, .json d⟩, [])

/-- `res.status(err.response?.status || 500).json({error:
err.response?.data?.message || err.message})`. -/
def errResponse (status : Option Nat) (dataMessage : Option String) (errMessage : String) :
    HttpResp :=
  ⟨jsOrStatus status, .errorMsg (jsOrStr dataMessage errMessage)⟩

/-- The 401 body of the token guard. -/
def notAuthenticatedMsg : String :=
  "Not authenticated. Set COPYLEAKS_EMAIL and COPYLEAKS_API_KEY environment variables."

/-- `refreshIfNeeded()`: run `authenticate()` when the store is stale,
otherwise leave it untouched. -/
def refreshIfNeeded (env : Env) (login : Option LoginBody) (now : Int) (st : AuthState) :
    AuthState × List Event :=
  if refreshNeeded st now then authenticate env login now st else (st, [])

/-- The `POST /api/detect` handler of `src/unnamed/part_000`
(`src/server.js` is the same modulo the absent `saveScan` calls):
`await refreshIfNeeded()`, the `!storedToken` guard, the `!req.file`
guard, the first detection POST, and on a 401 one `authenticate()`
followed by at most one retry POST rebuilt from the same
`req.file` / `sandbox` / `scanId`.  Returns the HTTP response, the
final credential store, and the trace of outbound effects. -/
def detect (w : World) (req : Request) (st0 : AuthState) : HttpResp × AuthState × List Event :=
  let r0 := refreshIfNeeded w.env w.login1 w.now st0
  if r0.1.storedToken.truthy then
    match req.file with
    | none => (⟨400, .errorMsg "No image file provided."⟩, r0.1, r0.2)
    | some file =>
      let sandbox : Bool := decide (req.sandboxField = some "true")
      let p1 := mkPayload file sandbox w.scanId r0.1.storedToken
      match w.first with
      | .ok d =>
          let sr := successResponse w file sandbox d
          (sr.1, r0.1, r0.2 ++ [.detectCall p1] ++ sr.2)
      | .err status dataMessage errMessage =>
          if status = some 401 then
            let r2 := authenticate w.env w.login2 w.now r0.1
            if r2.1.storedToken.truthy then
              let p2 := mkPayload file sandbox w.scanId r2.1.storedToken
              match w.retry with
              | .ok d =>
                  let sr := successResponse w file sandbox d
                  (sr.1, r2.1, r0.2 ++ [.detectCall p1] ++ r2.2 ++ [.detectCall p2] ++ sr.2)
              | .err s2 dm2 em2 =>
                  (errResponse s2 dm2 em2, r2.1,
                   r0.2 ++ [.detectCall p1] ++ r2.2 ++ [.detectCall p2])
            else
              (⟨401, .errorMsg "Re-authentication failed."⟩, r2.1, r0.2 ++ [.detectCall p1] ++ r2.2)
          else
            (errResponse status dataMessage errMessage, r0.1, r0.2 ++ [.detectCall p1])
  else
    (⟨401, .errorMsg notAuthenticatedMsg⟩, r0.1, r0.2)

/-- `limits: { fileSize: 32 * 1024 * 1024 }` of the multer configuration. -/
def FILE_SIZE_LIMIT : Nat := 32 * 1024 * 1024

/-- The detect route including the `upload.single('image')` middleware.
Modelled from the multer configuration in the source together with the
documented multer/Express semantics: a part exceeding
`limits.fileSize` makes multer abort the request with a `MulterError`
(`LIMIT_FILE_SIZE`, message `"File too large"`, no `status` field)
before the route handler runs; since the application registers no
error-handling middleware, Express's default error handler answers
with status `err.status || err.statusCode || 500`, i.e. `500`. -/
def detectRoute (w : World) (rawFile : Option UploadedFile) (sandboxField : Option String)
    (st : AuthState) : HttpResp × AuthState × List Event :=
  match rawFile with
  | some f =>
      if f.buffer.length > FILE_SIZE_LIMIT then
        (⟨500, .errorMsg "File too large"⟩, st, [])
      else detect w ⟨some f, sandboxField⟩ st
  | none => detect w ⟨none, sandboxField⟩ st

/-- A row of the `scans` table of `src/unnamed/part_000`. -/
structure ScanRow where
  id : Nat
  scan_id : String
  filename : String
  ai_pct : Int
  human_pct : Int
  width : Option Int
  height : Option Int
  sandbox : Bool
  created_at : Int
deriving DecidableEq

/-- The newest-first order used by the history SELECT
(`ORDER BY created_at DESC`). -/
def newerEq (a b : ScanRow) : Prop := b.created_at ≤ a.created_at

instance : DecidableRel newerEq := fun a b =>
  inferInstanceAs (Decidable (b.created_at ≤ a.created_at))

instance : IsTotal ScanRow newerEq := ⟨fun a b => le_total b.created_at a.created_at⟩

instance : IsTrans ScanRow newerEq := ⟨fun _ _ _ h1 h2 => le_trans h2 h1⟩

/-- Denotation of
`SELECT ... FROM scans ORDER BY created_at DESC LIMIT 100`
on a table state: the rows sorted newest-first, truncated to 100. -/
def historyQuery (table : List ScanRow) : List ScanRow :=
  (List.insertionSort newerEq table).take 100

/-- Response of `GET /api/history`: a JSON array of rows, or a 500
error body. -/
inductive HistoryResp where
  | rows (rs : List ScanRow)
  | failure (status : Nat) (msg : String)
deriving DecidableEq

/-- The `GET /api/history` handler of `src/unnamed/part_000`: with no
`DATABASE_URL` it answers `res.json([])`; otherwise it runs the SELECT
and answers the rows, or a `500 {error}` if the query throws. -/
def historyHandler (dbPresent : Bool) (table : List ScanRow) (queryOk : Bool)
    (errMsg : String) : HistoryResp :=
  if dbPresent then
    if queryOk then .rows (historyQuery table) else .failure 500 errMsg
  else .rows []

/-- The history records contained in a history response (an error body
carries none). -/
def recordsOf : HistoryResp → List ScanRow
  | .rows rs => rs
  | .failure _ _ => []

/-- A response body of the token / login endpoints of
`src/unnamed/part_001`: a fixed `{ok: true, message}` object or an
`{error}` object — neither shape has a field holding the token. -/
inductive ApiResp where
  | okMsg (message : String)
  | errMsg (status : Nat) (error : String)
deriving DecidableEq

/-- Model of JavaScript `String.prototype.trim()`: strip leading and
trailing whitespace (implemented over the character list so that it
evaluates inside the kernel). -/
def jsTrim (s : String) : String :=
  ⟨((s.data.dropWhile Char.isWhitespace).reverse.dropWhile Char.isWhitespace).reverse⟩

/-- The `POST /api/token` handler of `src/unnamed/part_001`: validates
the submitted string (`!token || token.trim().length === 0` after the
`typeof` check, which the `Option String` input already encodes),
stores `token.trim()`, and answers a fixed message. -/
def tokenHandler (body : Option String) (tok : JsVal) : ApiResp × JsVal :=
  match body with
  | none => (.errMsg 400 "token field is required.", tok)
  | some s =>
      if s.isEmpty || (jsTrim s).isEmpty then (.errMsg 400 "token field is required.", tok)
      else (.okMsg "Token stored. Ready to scan.", .str (jsTrim s))

/-- The `POST /api/login` handler of `src/unnamed/part_001`: validates
`email`/`key`, performs the upstream exchange (`upstream = none`
encodes a thrown axios error with message `upstreamErrMsg`), assigns
`storedToken = access_token || token` and only afterwards checks it,
throwing (caught below as a 401) when it is falsy — the assignment has
already happened by then. -/
def loginHandler (email key : Option String) (upstream : Option LoginBody)
    (upstreamErrMsg : String) (tok : JsVal) : ApiResp × JsVal :=
  if !envTruthy email || !envTruthy key then
    (.errMsg 400 "email and key are required.", tok)
  else
    match upstream with
    | none => (.errMsg 401 ("Authentication failed: " ++ upstreamErrMsg), tok)
    | some body =>
        let newTok := jsOr body.access_token body.token
        if newTok.truthy then (.okMsg "Authenticated. Token stored server-side.", newTok)
        else (.errMsg 401 "Authentication failed: No token returned by Copyleaks.", newTok)

/-- `storedToken !== null`. -/
def isNotNull : JsVal → Bool
  | .null => false
  | _ => true

/-- The `GET /api/status` body of `src/server.js` / `part_000`:
`{authenticated: storedToken !== null, configured}` — two booleans. -/
def statusBody (env : Env) (st : AuthState) : Bool × Bool :=
  (isNotNull st.storedToken, env.configured)

/-- The `GET /api/status` body of `src/unnamed/part_001`:
`{tokenSet: storedToken !== null}`. -/
def statusBody1 (tok : JsVal) : Bool := isNotNull tok

/-- Event classifiers and counters over a trace. -/
def isDetectEvent : Event → Bool
  | .detectCall _ => true
  | _ => false

def isSaveEvent : Event → Bool
  | .saveCall _ => true
  | _ => false

def isLoginEvent : Event → Bool
  | .loginCall => true
  | _ => false

def detectCount (l : List Event) : Nat := l.countP isDetectEvent

def saveCount (l : List Event) : Nat := l.countP isSaveEvent

def loginCount (l : List Event) : Nat := l.countP isLoginEvent

/-- The detection payloads of a trace, in order. -/
def detectPayloads (l : List Event) : List Payload :=
  l.filterMap fun e => match e with | .detectCall p => some p | _ => none

/-- The events of a trace that follow its first detection POST. -/
def afterFirstDetect (l : List Event) : List Event :=
  (l.dropWhile fun e => !isDetectEvent e).tail

def isOkResp : UpstreamResp → Bool
  | .ok _ => true
  | _ => false

def isAuthReject : UpstreamResp → Bool
  | .err s _ _ => s = some 401
  | _ => false

/-- Whether some upstream detection attempt of the call came back 2xx:
the first attempt, or (after a first-attempt 401) the retry. -/
def upstreamSucceeded (w : World) : Bool :=
  isOkResp w.first || (isAuthReject w.first && isOkResp w.retry)

/-- Credential-store states reachable in `server.js` / `part_000`: the
initial nulls, closed under `authenticate` runs (every mutation of
`storedToken`/`tokenFetchedAt` in those files happens inside
`authenticate`, which `refreshIfNeeded`, the 401 retry branch, startup
and the interval timer all call). -/
inductive ReachableAuth : AuthState → Prop where
  | init : ReachableAuth initialAuthState
  | step (env : Env) (login : Option LoginBody) (now : Int) (st : AuthState) :
      ReachableAuth st → ReachableAuth (authenticate env login now st).1

/-! Trace accounting lemmas. -/

@[simp] lemma detectCount_nil : detectCount [] = 0 := rfl

@[simp] lemma saveCount_nil : saveCount [] = 0 := rfl

@[simp] lemma loginCount_nil : loginCount [] = 0 := rfl

@[simp] lemma detectPayloads_nil : detectPayloads [] = [] := rfl

@[simp] lemma detectCount_append (a b : List Event) :
    detectCount (a ++ b) = detectCount a + detectCount b :=
  List.countP_append ..

@[simp] lemma saveCount_append (a b : List Event) :
    saveCount (a ++ b) = saveCount a + saveCount b :=
  List.countP_append ..

@[simp] lemma loginCount_append (a b : List Event) :
    loginCount (a ++ b) = loginCount a + loginCount b :=
  List.countP_append ..

@[simp] lemma detectPayloads_append (a b : List Event) :
    detectPayloads (a ++ b) = detectPayloads a ++ detectPayloads b :=
  List.filterMap_append ..

@[simp] lemma detectCount_cons (e : Event) (l : List Event) :
    detectCount (e :: l) = detectCount l + if isDetectEvent e then 1 else 0 :=
  List.countP_cons ..

@[simp] lemma saveCount_cons (e : Event) (l : List Event) :
    saveCount (e :: l) = saveCount l + if isSaveEvent e then 1 else 0 :=
  List.countP_cons ..

@[simp] lemma loginCount_cons (e : Event) (l : List Event) :
    loginCount (e :: l) = loginCount l + if isLoginEvent e then 1 else 0 :=
  List.countP_cons ..

@[simp] lemma detectPayloads_cons (e : Event) (l : List Event) :
    detectPayloads (e :: l) =
      (match e with | .detectCall p => some p | _ => none).toList ++ detectPayloads l := by
  cases e <;> simp [detectPayloads, List.filterMap_cons]

@[simp] lemma authenticate_events (env : Env) (login : Option LoginBody) (now : Int)
    (st : AuthState) :
    (authenticate env login now st).2 = if env.configured then [Event.loginCall] else [] := by
  unfold authenticate
  cases login <;> by_cases h : env.configured <;> simp [h]

@[simp] lemma detectCount_authenticate (env : Env) (login : Option LoginBody) (now : Int)
    (st : AuthState) : detectCount (authenticate env login now st).2 = 0 := by
  rw [authenticate_events]; split <;> simp [detectCount, List.countP, List.countP.go, isDetectEvent]

@[simp] lemma saveCount_authenticate (env : Env) (login : Option LoginBody) (now : Int)
    (st : AuthState) : saveCount (authenticate env login now st).2 = 0 := by
  rw [authenticate_events]; split <;> simp [saveCount, List.countP, List.countP.go, isSaveEvent]

@[simp] lemma loginCount_authenticate (env : Env) (login : Option LoginBody) (now : Int)
    (st : AuthState) :
    loginCount (authenticate env login now st).2 = if env.configured then 1 else 0 := by
  rw [authenticate_events]; split <;> simp [loginCount, List.countP, List.countP.go, isLoginEvent]

@[simp] lemma detectPayloads_authenticate (env : Env) (login : Option LoginBody) (now : Int)
    (st : AuthState) : detectPayloads (authenticate env login now st).2 = [] := by
  rw [authenticate_events]; split <;> simp [detectPayloads, List.filterMap]

@[simp] lemma saveCall_not_mem_authenticate (env : Env) (login : Option LoginBody) (now : Int)
    (st : AuthState) (r : SaveArgs) : Event.saveCall r ∉ (authenticate env login now st).2 := by
  rw [authenticate_events]; split <;> simp

@[simp] lemma detectCount_refreshIfNeeded (env : Env) (login : Option LoginBody) (now : Int)
    (st : AuthState) : detectCount (refreshIfNeeded env login now st).2 = 0 := by
  unfold refreshIfNeeded
  by_cases hc : env.configured <;> split <;> simp [hc, isDetectEvent]

@[simp] lemma saveCount_refreshIfNeeded (env : Env) (login : Option LoginBody) (now : Int)
    (st : AuthState) : saveCount (refreshIfNeeded env login now st).2 = 0 := by
  unfold refreshIfNeeded
  by_cases hc : env.configured <;> split <;> simp [hc, isSaveEvent]

@[simp] lemma detectPayloads_refreshIfNeeded (env : Env) (login : Option LoginBody) (now : Int)
    (st : AuthState) : detectPayloads (refreshIfNeeded env login now st).2 = [] := by
  unfold refreshIfNeeded
  by_cases hc : env.configured <;> split <;> simp [hc]

@[simp] lemma saveCall_not_mem_refreshIfNeeded (env : Env) (login : Option LoginBody) (now : Int)
    (st : AuthState) (r : SaveArgs) :
    Event.saveCall r ∉ (refreshIfNeeded env login now st).2 := by
  unfold refreshIfNeeded; split <;> simp

@[simp] lemma detectCount_successResponse (w : World) (f : UploadedFile) (sb : Bool)
    (d : DetectBody) : detectCount (successResponse w f sb d).2 = 0 := by
  unfold successResponse; split <;> simp [isDetectEvent]

@[simp] lemma saveCount_successResponse (w : World) (f : UploadedFile) (sb : Bool)
    (d : DetectBody) :
    saveCount (successResponse w f sb d).2 = if w.dbPresent then 1 else 0 := by
  unfold successResponse; split <;> simp_all [isSaveEvent]

@[simp] lemma loginCount_successResponse (w : World) (f : UploadedFile) (sb : Bool)
    (d : DetectBody) : loginCount (successResponse w f sb d).2 = 0 := by
  unfold successResponse; split <;> simp [isLoginEvent]

@[simp] lemma detectPayloads_successResponse (w : World) (f : UploadedFile) (sb : Bool)
    (d : DetectBody) : detectPayloads (successResponse w f sb d).2 = [] := by
  unfold successResponse; split <;> simp

@[simp] lemma saveCall_mem_successResponse (w : World) (f : UploadedFile) (sb : Bool)
    (d : DetectBody) (r : SaveArgs) :
    Event.saveCall r ∈ (successResponse w f sb d).2 ↔
      w.dbPresent = true ∧ r = savedRow w f sb d := by
  unfold successResponse; split <;> simp_all

/-! Named intermediate states of one `detect` call, and a master case
analysis of its control flow. -/

/-- The credential store after the initial `refreshIfNeeded`. -/
def stR (w : World) (st : AuthState) : AuthState :=
  (refreshIfNeeded w.env w.login1 w.now st).1

/-- The events of the initial `refreshIfNeeded`. -/
def evR (w : World) (st : AuthState) : List Event :=
  (refreshIfNeeded w.env w.login1 w.now st).2

/-- The credential store after the 401-triggered re-authentication. -/
def stA (w : World) (st : AuthState) : AuthState :=
  (authenticate w.env w.login2 w.now (stR w st)).1

/-- The events of the 401-triggered re-authentication. -/
def evA (w : World) (st : AuthState) : List Event :=
  (authenticate w.env w.login2 w.now (stR w st)).2

/-- `req.body.sandbox === 'true'`. -/
def sbOf (req : Request) : Bool := decide (req.sandboxField = some "true")

/-- The payload of the first detection POST. -/
def firstPayload (w : World) (req : Request) (st : AuthState) (file : UploadedFile) : Payload :=
  mkPayload file (sbOf req) w.scanId (stR w st).storedToken

/-- The payload of the retry detection POST. -/
def retryPayload (w : World) (req : Request) (st : AuthState) (file : UploadedFile) : Payload :=
  mkPayload file (sbOf req) w.scanId (stA w st).storedToken

@[simp] lemma detectPayloads_evR (w : World) (st : AuthState) :
    detectPayloads (evR w st) = [] :=
  detectPayloads_refreshIfNeeded ..

@[simp] lemma detectPayloads_evA (w : World) (st : AuthState) :
    detectPayloads (evA w st) = [] :=
  detectPayloads_authenticate ..

@[simp] lemma detectCount_evR (w : World) (st : AuthState) : detectCount (evR w st) = 0 :=
  detectCount_refreshIfNeeded ..

@[simp] lemma detectCount_evA (w : World) (st : AuthState) : detectCount (evA w st) = 0 :=
  detectCount_authenticate ..

@[simp] lemma saveCount_evR (w : World) (st : AuthState) : saveCount (evR w st) = 0 :=
  saveCount_refreshIfNeeded ..

@[simp] lemma saveCount_evA (w : World) (st : AuthState) : saveCount (evA w st) = 0 :=
  saveCount_authenticate ..

@[simp] lemma loginCount_evA (w : World) (st : AuthState) :
    loginCount (evA w st) = if w.env.configured then 1 else 0 :=
  loginCount_authenticate ..

@[simp] lemma saveCall_not_mem_evR (w : World) (st : AuthState) (r : SaveArgs) :
    Event.saveCall r ∉ evR w st :=
  saveCall_not_mem_refreshIfNeeded w.env w.login1 w.now st r

@[simp] lemma saveCall_not_mem_evA (w : World) (st : AuthState) (r : SaveArgs) :
    Event.saveCall r ∉ evA w st :=
  saveCall_not_mem_authenticate w.env w.login2 w.now (stR w st) r

/-- `refreshIfNeeded` issues no event or exactly one login POST. -/
lemma evR_cases (w : World) (st : AuthState) :
    evR w st = [] ∨ evR w st = [Event.loginCall] := by
  unfold evR refreshIfNeeded
  split
  · rw [authenticate_events]
    split
    · right; rfl
    · left; rfl
  · left; rfl

/-- The refresh events all precede the first detection POST: dropping
up to and including that POST leaves exactly the later events. -/
lemma afterFirstDetect_evR (w : World) (st : AuthState) (p : Payload) (l : List Event) :
    afterFirstDetect (evR w st ++ Event.detectCall p :: l) = l := by
  rcases evR_cases w st with h | h <;>
    simp [h, afterFirstDetect, List.dropWhile_cons, isDetectEvent]

/-- With a non-stale store, `refreshIfNeeded` issues no events. -/
lemma evR_eq_nil (w : World) (st : AuthState) (h : refreshNeeded st w.now = false) :
    evR w st = [] := by
  simp [evR, refreshIfNeeded, h]

/-- With a non-stale store, `refreshIfNeeded` leaves the store as is. -/
lemma stR_eq (w : World) (st : AuthState) (h : refreshNeeded st w.now = false) :
    stR w st = st := by
  simp [stR, refreshIfNeeded, h]

/-- A non-stale store holds a truthy token. -/
lemma truthy_of_not_stale (st : AuthState) (now : Int) (h : refreshNeeded st now = false) :
    st.storedToken.truthy = true := by
  unfold refreshNeeded at h
  rcases Bool.or_eq_false_iff.mp h with ⟨h1, _⟩
  simpa using h1

/-- With a stale store, `refreshIfNeeded` runs `authenticate` and the
store consulted afterwards is its output. -/
lemma stR_stale (w : World) (st : AuthState) (h : refreshNeeded st w.now = true) :
    stR w st = (authenticate w.env w.login1 w.now st).1 := by
  simp [stR, refreshIfNeeded, h]

@[simp] lemma ite_le_one (c : Prop) [Decidable c] : (if c then 1 else 0) ≤ 1 := by
  split <;> simp

/-- The seven control paths of the `POST /api/detect` handler, each
with its exact response, final store and event trace. -/
lemma detect_cases (w : World) (req : Request) (st : AuthState) :
    ((stR w st).storedToken.truthy = false ∧
      detect w req st = (⟨401, .errorMsg notAuthenticatedMsg⟩, stR w st, evR w st)) ∨
    ((stR w st).storedToken.truthy = true ∧ req.file = none ∧
      detect w req st = (⟨400, .errorMsg "No image file provided."⟩, stR w st, evR w st)) ∨
    (∃ file d, (stR w st).storedToken.truthy = true ∧ req.file = some file ∧
      w.first = .ok d ∧
      detect w req st = ((successResponse w file (sbOf req) d).1, stR w st,
        evR w st ++ [.detectCall (firstPayload w req st file)] ++
          (successResponse w file (sbOf req) d).2)) ∨
    (∃ file s dm em, (stR w st).storedToken.truthy = true ∧ req.file = some file ∧
      w.first = .err s dm em ∧ s ≠ some 401 ∧
      detect w req st = (errResponse s dm em, stR w st,
        evR w st ++ [.detectCall (firstPayload w req st file)])) ∨
    (∃ file dm em, (stR w st).storedToken.truthy = true ∧ req.file = some file ∧
      w.first = .err (some 401) dm em ∧ (stA w st).storedToken.truthy = false ∧
      detect w req st = (⟨401, .errorMsg "Re-authentication failed."⟩, stA w st,
        evR w st ++ [.detectCall (firstPayload w req st file)] ++ evA w st)) ∨
    (∃ file dm em d2, (stR w st).storedToken.truthy = true ∧ req.file = some file ∧
      w.first = .err (some 401) dm em ∧ (stA w st).storedToken.truthy = true ∧
      w.retry = .ok d2 ∧
      detect w req st = ((successResponse w file (sbOf req) d2).1, stA w st,
        evR w st ++ [.detectCall (firstPayload w req st file)] ++ evA w st ++
          [.detectCall (retryPayload w req st file)] ++
          (successResponse w file (sbOf req) d2).2)) ∨
    (∃ file dm em s2 dm2 em2, (stR w st).storedToken.truthy = true ∧ req.file = some file ∧
      w.first = .err (some 401) dm em ∧ (stA w st).storedToken.truthy = true ∧
      w.retry = .err s2 dm2 em2 ∧
      detect w req st = (errResponse s2 dm2 em2, stA w st,
        evR w st ++ [.detectCall (firstPayload w req st file)] ++ evA w st ++
          [.detectCall (retryPayload w req st file)])) := by
  cases htr : (stR w st).storedToken.truthy with
  | false =>
      have h : (refreshIfNeeded w.env w.login1 w.now st).1.storedToken.truthy = false := htr
      exact Or.inl ⟨rfl, by simp [detect, h, stR, evR]⟩
  | true =>
      have h : (refreshIfNeeded w.env w.login1 w.now st).1.storedToken.truthy = true := htr
      rcases hfile : req.file with _ | file
      · exact Or.inr (Or.inl ⟨rfl, rfl, by simp [detect, h, hfile, stR, evR]⟩)
      · rcases hfirst : w.first with d | ⟨s, dm, em⟩
        · refine Or.inr (Or.inr (Or.inl ⟨file, d, rfl, rfl, rfl, ?_⟩))
          simp [detect, h, hfile, hfirst, stR, evR, sbOf, firstPayload]
        · by_cases h401 : s = some 401
          · subst h401
            cases htrA : (stA w st).storedToken.truthy with
            | false =>
                have hA : (authenticate w.env w.login2 w.now
                    (refreshIfNeeded w.env w.login1 w.now st).1).1.storedToken.truthy = false := htrA
                refine Or.inr (Or.inr (Or.inr (Or.inr (Or.inl
                  ⟨file, dm, em, rfl, rfl, rfl, rfl, ?_⟩))))
                simp [detect, h, hfile, hfirst, hA, stR, evR, stA, evA, sbOf, firstPayload]
            | true =>
                have hA : (authenticate w.env w.login2 w.now
                    (refreshIfNeeded w.env w.login1 w.now st).1).1.storedToken.truthy = true := htrA
                rcases hretry : w.retry with d2 | ⟨s2, dm2, em2⟩
                · refine Or.inr (Or.inr (Or.inr (Or.inr (Or.inr (Or.inl
                    ⟨file, dm, em, d2, rfl, rfl, rfl, rfl, rfl, ?_⟩)))))
                  simp [detect, h, hfile, hfirst, hA, hretry, stR, evR, stA, evA, sbOf,
                    firstPayload, retryPayload]
                · refine Or.inr (Or.inr (Or.inr (Or.inr (Or.inr (Or.inr
                    ⟨file, dm, em, s2, dm2, em2, rfl, rfl, rfl, rfl, rfl, ?_⟩)))))
                  simp [detect, h, hfile, hfirst, hA, hretry, stR, evR, stA, evA, sbOf,
                    firstPayload, retryPayload]
          · refine Or.inr (Or.inr (Or.inr (Or.inl
              ⟨file, s, dm, em, rfl, rfl, rfl, h401, ?_⟩)))
            simp [detect, h, hfile, hfirst, h401, stR, evR, sbOf, firstPayload]

/-! Concrete fixtures used by witnesses and counterexamples. -/

/-- A small concrete upload. -/
def fileC : UploadedFile := ⟨[1, 2, 3], "photo.png", "image/png"⟩

/-- A concrete upstream body: `{summary: {ai: 73}}`. -/
def bodyC : DetectBody := ⟨some ⟨some 73, none⟩, none⟩

/-- A configured environment. -/
def envC : Env := ⟨some "user@example.com", some "apikey"⟩

/-- An unconfigured environment. -/
def envNone : Env := ⟨none, none⟩

/-- A fresh credential store. -/
def stFresh : AuthState := ⟨.str "tok", some 0⟩

/-- A store whose token is present but 47 hours old at `TOKEN_TTL_MS`. -/
def stStale : AuthState := ⟨.str "old", some 0⟩

/-- A concrete detect request (file present, no sandbox field). -/
def reqC : Request := ⟨some fileC, none⟩

/-- A world where the first attempt succeeds but the history INSERT throws. -/
def wSaveFail : World :=
  ⟨0, envC, none, none, .ok bodyC, .ok bodyC, true, false, "insert failed", "scan-1"⟩

/-- A world where the first attempt succeeds and no database is configured. -/
def wNoDb : World := ⟨0, envC, none, none, .ok bodyC, .ok bodyC, false, true, "", "scan-4"⟩

/-- A world observed at `TOKEN_TTL_MS` with an unconfigured environment
(so any refresh attempt is a no-op). -/
def wStale : World := ⟨TOKEN_TTL_MS, envNone, none, none, .ok bodyC, .ok bodyC, false, true, "", "scan-2"⟩

/-- A world whose unconfigured refresh cannot succeed and whose store
starts empty. -/
def wNoAuth : World := ⟨0, envNone, none, none, .ok bodyC, .ok bodyC, false, true, "", "scan-5"⟩

/-- A world where the first detection attempt is rejected with 401 and
re-authentication yields a fresh token. -/
def w401 : World :=
  ⟨0, envC, none, some ⟨.str "tok2", .null⟩,
   .err (some 401) none "Request failed with status code 401", .ok bodyC, false, true, "", "scan-3"⟩

/-- A world where the first attempt is 401-rejected, re-authentication
yields a token, the retry succeeds, and the history INSERT throws. -/
def w401SaveFail : World :=
  ⟨0, envC, none, some ⟨.str "tok2", .null⟩,
   .err (some 401) none "Request failed with status code 401", .ok bodyC,
   true, false, "insert failed", "scan-6"⟩

/-- A 2xx login body carrying no token field at all. -/
def noTokenBody : LoginBody := ⟨.undef, .undef⟩

/-- An upload one byte over the 32 MiB ceiling. -/
def bigFile : UploadedFile := ⟨List.replicate (FILE_SIZE_LIMIT + 1) 0, "big.png", "image/png"⟩

/-- Two history rows stored oldest-first. -/
def tableC : List ScanRow :=
  [⟨1, "a", "f.png", 10, 90, none, none, false, 5⟩,
   ⟨2, "b", "g.png", 20, 80, some 4, some 4, true, 9⟩]

/-! Claim theorems. -/

/-- C6: for every 2xx upstream detection response, the extracted
`aiPercentage` defaults to 0 when the payload omits `summary.ai`, the
extracted `humanPercentage` equals `100 - aiPercentage` when the
payload omits `summary.human`, and a missing `imageInfo` width/height
is recorded in the history row as absent, not zero.  (These are the
extraction and `saveScan` coercion steps run by `detect` on every 2xx
body.) -/
theorem result_extraction_defaults (w : World) (file : UploadedFile) (sb : Bool)
    (d : DetectBody) :
    (d.summary.bind Summary.ai = none → extractAiPct d = 0) ∧
    (d.summary.bind Summary.human = none → extractHumanPct d = 100 - extractAiPct d) ∧
    (d.imageInfo.bind ImageInfo.width = none → (savedRow w file sb d).width = none) ∧
    (d.imageInfo.bind ImageInfo.height = none → (savedRow w file sb d).height = none) := by
  refine ⟨fun h => ?_, fun h => ?_, fun h => ?_, fun h => ?_⟩ <;>
    simp [extractAiPct, extractHumanPct, savedRow, jsNumOrNull, h]

theorem result_extraction_defaults_witness :
    extractAiPct ⟨none, none⟩ = 0 ∧
    extractHumanPct ⟨none, none⟩ = 100 - extractAiPct ⟨none, none⟩ ∧
    (savedRow wSaveFail fileC false ⟨none, none⟩).width = none ∧
    (savedRow wSaveFail fileC false ⟨none, none⟩).height = none := by
  obtain ⟨h1, h2, h3, h4⟩ := result_extraction_defaults wSaveFail fileC false ⟨none, none⟩
  exact ⟨h1 rfl, h2 rfl, h3 rfl, h4 rfl⟩

/-- C8: `GET /api/history` answers the empty sequence (not an error)
when persistence is disabled, and in every case the history records it
returns number at most 100 and are ordered newest first by
`created_at`. -/
theorem history_bounded_sorted (dbPresent : Bool) (table : List ScanRow) (queryOk : Bool)
    (errMsg : String) :
    (dbPresent = false → historyHandler dbPresent table queryOk errMsg = .rows []) ∧
    (recordsOf (historyHandler dbPresent table queryOk errMsg)).length ≤ 100 ∧
    List.Sorted newerEq (recordsOf (historyHandler dbPresent table queryOk errMsg)) := by
  refine ⟨fun h => by simp [historyHandler, h], ?_, ?_⟩
  · have h := List.length_take_le 100 (List.insertionSort newerEq table)
    by_cases hdb : dbPresent <;> by_cases hq : queryOk <;>
      simp_all [historyHandler, recordsOf, historyQuery]
  · have hs : List.Sorted newerEq ((List.insertionSort newerEq table).take 100) :=
      List.Pairwise.sublist
        (List.take_sublist 100 (List.insertionSort newerEq table))
        (List.sorted_insertionSort newerEq table)
    have hnil : List.Sorted newerEq ([] : List ScanRow) := List.sorted_nil
    by_cases hdb : dbPresent <;> by_cases hq : queryOk <;>
      simp_all [historyHandler, recordsOf, historyQuery]

theorem history_bounded_sorted_witness :
    historyHandler false tableC true "" = .rows [] ∧
    (recordsOf (historyHandler true tableC true "")).length ≤ 100 ∧
    List.Sorted newerEq (recordsOf (historyHandler true tableC true "")) := by
  refine ⟨(history_bounded_sorted false tableC true "").1 rfl,
    (history_bounded_sorted true tableC true "").2.1,
    (history_bounded_sorted true tableC true "").2.2⟩

/-- C9: every detection payload forwarded upstream by a `detect()` call
carries the sandbox flag `"true"` exactly when the client-supplied
`sandbox` form field is the string `"true"`; any other value, including
an absent field, is forwarded as `"false"`. -/
theorem sandbox_forwarding (w : World) (req : Request) (st : AuthState) (p : Payload)
    (hp : p ∈ detectPayloads (detect w req st).2.2) :
    p.sandbox = if req.sandboxField = some "true" then "true" else "false" := by
  rcases detect_cases w req st with
    ⟨h1, heq⟩ | ⟨h1, h2, heq⟩ | ⟨file, d, h1, h2, h3, heq⟩ |
    ⟨file, s, dm, em, h1, h2, h3, h4, heq⟩ | ⟨file, dm, em, h1, h2, h3, h4, heq⟩ |
    ⟨file, dm, em, d2, h1, h2, h3, h4, h5, heq⟩ |
    ⟨file, dm, em, s2, dm2, em2, h1, h2, h3, h4, h5, heq⟩ <;>
  rw [heq] at hp <;>
  simp [firstPayload, retryPayload, mkPayload, sbOf] at hp <;>
  first
  | (rcases hp with h | h <;> subst h <;> simp)
  | (subst hp; simp)

theorem sandbox_forwarding_witness :
    (firstPayload wSaveFail reqC stFresh fileC).sandbox =
      if reqC.sandboxField = some "true" then "true" else "false" :=
  sandbox_forwarding wSaveFail reqC stFresh (firstPayload wSaveFail reqC stFresh fileC)
    (by decide)

/-- C10: the stored bearer token value never appears in a response
body.  The status endpoints of both variants answer only booleans
derived from the token's presence, so two states whose tokens are both
present but differ in value produce identical status bodies; and the
token-submission and login endpoints of `part_001` answer fixed
ok/message or error fields whose content is independent of the stored
token, of the submitted token value, and of the newly obtained token
carried by the upstream login response (two 2xx login bodies that both
yield a token produce identical responses, so the token that gets
stored is never echoed). -/
theorem token_never_echoed :
    (∀ (env : Env) (t1 t2 : String) (f1 f2 : Option Int),
      statusBody env ⟨.str t1, f1⟩ = statusBody env ⟨.str t2, f2⟩) ∧
    (∀ (tok1 tok2 : JsVal) (s1 s2 : String), (jsTrim s1).isEmpty = false →
      (jsTrim s2).isEmpty = false →
      (tokenHandler (some s1) tok1).1 = (tokenHandler (some s2) tok2).1) ∧
    (∀ (e k : Option String) (up : Option LoginBody) (m : String) (tok1 tok2 : JsVal),
      (loginHandler e k up m tok1).1 = (loginHandler e k up m tok2).1) ∧
    (∀ (e k : Option String) (b1 b2 : LoginBody) (m : String) (tok1 tok2 : JsVal),
      (jsOr b1.access_token b1.token).truthy = true →
      (jsOr b2.access_token b2.token).truthy = true →
      (loginHandler e k (some b1) m tok1).1 = (loginHandler e k (some b2) m tok2).1) ∧
    (∀ t1 t2 : String, statusBody1 (.str t1) = statusBody1 (.str t2)) := by
  refine ⟨fun env t1 t2 f1 f2 => rfl, ?_, ?_, ?_, fun t1 t2 => rfl⟩
  · intro tok1 tok2 s1 s2 h1 h2
    have e1 : s1.isEmpty = false := by
      rcases he : s1.isEmpty with _ | _
      · rfl
      · rw [(String.isEmpty_iff s1).mp he] at h1
        exact absurd h1 (by decide)
    have e2 : s2.isEmpty = false := by
      rcases he : s2.isEmpty with _ | _
      · rfl
      · rw [(String.isEmpty_iff s2).mp he] at h2
        exact absurd h2 (by decide)
    simp [tokenHandler, e1, e2, h1, h2]
  · intro e k up m tok1 tok2
    unfold loginHandler
    split
    · rfl
    · cases up <;> rfl
  · intro e k b1 b2 m tok1 tok2 h1 h2
    unfold loginHandler
    split
    · rfl
    · simp [h1, h2]

theorem token_never_echoed_witness :
    statusBody envC ⟨.str "alpha", some 1⟩ = statusBody envC ⟨.str "beta", none⟩ ∧
    (tokenHandler (some "aa") JsVal.null).1 = (tokenHandler (some "bb") (.str "x")).1 ∧
    (loginHandler (some "e") (some "k") (some ⟨.str "t", .null⟩) "m" (.str "x")).1 =
      (loginHandler (some "e") (some "k") (some ⟨.str "t", .null⟩) "m" (.str "y")).1 ∧
    (loginHandler (some "e") (some "k") (some ⟨.str "t1", .null⟩) "m" (.str "x")).1 =
      (loginHandler (some "e") (some "k") (some ⟨.str "t2", .undef⟩) "m" (.str "y")).1 ∧
    statusBody1 (.str "alpha") = statusBody1 (.str "beta") := by
  obtain ⟨h1, h2, h3, h4, h5⟩ := token_never_echoed
  exact ⟨h1 envC "alpha" "beta" (some 1) none,
    h2 JsVal.null (.str "x") "aa" "bb" (by decide) (by decide),
    h3 (some "e") (some "k") (some ⟨.str "t", .null⟩) "m" (.str "x") (.str "y"),
    h4 (some "e") (some "k") ⟨.str "t1", .null⟩ ⟨.str "t2", .undef⟩ "m" (.str "x") (.str "y")
      (by decide) (by decide),
    h5 "alpha" "beta"⟩

/-- C3 (amended): the History Recorder is invoked at most once per
`detect()` call — never twice, even when the single 401 retry occurs —
and only after an upstream detection attempt of the call came back
2xx (the first attempt or the single retry, never both).  (The claim's
further clause, that the recorder is never invoked on a call whose
final outcome is an error, fails: see the counterexample.) -/
theorem recorder_at_most_once (w : World) (req : Request) (st : AuthState) :
    saveCount (detect w req st).2.2 ≤ 1 ∧
    ∀ r, Event.saveCall r ∈ (detect w req st).2.2 → upstreamSucceeded w = true := by
  rcases detect_cases w req st with
    ⟨h1, heq⟩ | ⟨h1, h2, heq⟩ | ⟨file, d, h1, h2, h3, heq⟩ |
    ⟨file, s, dm, em, h1, h2, h3, h4, heq⟩ | ⟨file, dm, em, h1, h2, h3, h4, heq⟩ |
    ⟨file, dm, em, d2, h1, h2, h3, h4, h5, heq⟩ |
    ⟨file, dm, em, s2, dm2, em2, h1, h2, h3, h4, h5, heq⟩ <;>
  rw [heq] <;>
  refine ⟨?_, fun r hr => ?_⟩ <;>
  simp_all [upstreamSucceeded, isOkResp, isAuthReject, isSaveEvent, isDetectEvent, isLoginEvent]

theorem recorder_at_most_once_witness :
    saveCount (detect wSaveFail reqC stFresh).2.2 ≤ 1 ∧ upstreamSucceeded wSaveFail = true := by
  obtain ⟨h1, h2⟩ := recorder_at_most_once wSaveFail reqC stFresh
  exact ⟨h1, h2 (savedRow wSaveFail fileC false bodyC) (by decide)⟩

/-- C3 counterexample: a call whose history INSERT throws has invoked
the History Recorder once, yet its final outcome is a 500 error — so
"never invoked when the final outcome is an error" fails on the code. -/
theorem recorder_on_error_cx :
    Event.saveCall (savedRow wSaveFail fileC false bodyC) ∈ (detect wSaveFail reqC stFresh).2.2 ∧
    (detect wSaveFail reqC stFresh).1.status = 500 := by decide

/-- C2 (amended): the persist step runs inside the handler's `try`
blocks, so its failure after a successful upstream detection — whether
the first attempt succeeded or the single 401 retry did — propagates
to the HTTP caller as a 500 carrying the persistence error message and
the already-computed detection payload is not returned; only when
persistence is disabled (no `DATABASE_URL`) is the response unaffected,
`saveScan` being a silent no-op then. -/
theorem save_failure_amended (w : World) (req : Request) (st : AuthState)
    (file : UploadedFile)
    (hf : req.file = some file) (htr : (stR w st).storedToken.truthy = true) :
    (∀ d, w.first = .ok d →
      (w.dbPresent = true → w.saveOk = false →
        (detect w req st).1 = ⟨500, .errorMsg w.saveErrMsg⟩) ∧
      (w.dbPresent = false → (detect w req st).1 = ⟨200, .json d⟩)) ∧
    (∀ dm em d2, w.first = .err (some 401) dm em →
      (stA w st).storedToken.truthy = true → w.retry = .ok d2 →
      (w.dbPresent = true → w.saveOk = false →
        (detect w req st).1 = ⟨500, .errorMsg w.saveErrMsg⟩) ∧
      (w.dbPresent = false → (detect w req st).1 = ⟨200, .json d2⟩)) := by
  rcases detect_cases w req st with
    ⟨h1, heq⟩ | ⟨h1, h2, heq⟩ | ⟨file0, d0, h1, h2, h3, heq⟩ |
    ⟨file0, s, dm0, em0, h1, h2, h3, h4, heq⟩ | ⟨file0, dm0, em0, h1, h2, h3, h4, heq⟩ |
    ⟨file0, dm0, em0, d20, h1, h2, h3, h4, h5, heq⟩ |
    ⟨file0, dm0, em0, s2, dm2, em2, h1, h2, h3, h4, h5, heq⟩
  · rw [htr] at h1; cases h1
  · rw [hf] at h2; cases h2
  · rw [hf] at h2; injection h2 with hfe; subst hfe
    refine ⟨fun d hok => ?_, fun dm em d2 hfi hA hrok => ?_⟩
    · rw [hok] at h3; injection h3 with hde; subst hde
      rw [heq]
      refine ⟨fun hdb hsv => ?_, fun hdb => ?_⟩
      · simp [successResponse, hdb, hsv]
      · simp [successResponse, hdb]
    · rw [hfi] at h3; cases h3
  · refine ⟨fun d hok => ?_, fun dm em d2 hfi hA hrok => ?_⟩
    · rw [hok] at h3; cases h3
    · rw [hfi] at h3; injection h3 with hs _ _; exact absurd hs.symm h4
  · refine ⟨fun d hok => ?_, fun dm em d2 hfi hA hrok => ?_⟩
    · rw [hok] at h3; cases h3
    · rw [h4] at hA; cases hA
  · rw [hf] at h2; injection h2 with hfe; subst hfe
    refine ⟨fun d hok => ?_, fun dm em d2 hfi hA hrok => ?_⟩
    · rw [hok] at h3; cases h3
    · rw [hrok] at h5; injection h5 with hde; subst hde
      rw [heq]
      refine ⟨fun hdb hsv => ?_, fun hdb => ?_⟩
      · simp [successResponse, hdb, hsv]
      · simp [successResponse, hdb]
  · refine ⟨fun d hok => ?_, fun dm em d2 hfi hA hrok => ?_⟩
    · rw [hok] at h3; cases h3
    · rw [hrok] at h5; cases h5

theorem save_failure_amended_witness :
    (detect wNoDb reqC stFresh).1 = ⟨200, .json bodyC⟩ ∧
    (detect w401SaveFail reqC stFresh).1 = ⟨500, .errorMsg "insert failed"⟩ :=
  ⟨((save_failure_amended wNoDb reqC stFresh fileC rfl (by decide)).1 bodyC rfl).2 rfl,
   ((save_failure_amended w401SaveFail reqC stFresh fileC rfl (by decide)).2 none
     "Request failed with status code 401" bodyC rfl (by decide) rfl).1 rfl rfl⟩

/-- C2 counterexample: persistence present, upstream 2xx, INSERT
throws — the caller receives `500 {error: "insert failed"}`, not the
already-computed successful detection payload. -/
theorem save_failure_cx :
    (detect wSaveFail reqC stFresh).1 = ⟨500, .errorMsg "insert failed"⟩ ∧
    (detect wSaveFail reqC stFresh).1 ≠ ⟨200, .json bodyC⟩ := by decide

/-- C5 (amended): with a stale store, `detect()` first runs the
Authenticator synchronously (the guard and the first payload use its
output); if afterwards no token is present, it answers 401
"unauthenticated" without any detection POST, so no image bytes go
upstream on that path.  (The claim's stronger reading — fail fast
whenever the refresh fails — is false: a stale-but-present token
survives a failed refresh and the call proceeds upstream; see the
counterexample.) -/
theorem stale_refresh_amended (w : World) (req : Request) (st : AuthState)
    (file : UploadedFile)
    (hf : req.file = some file) (hstale : refreshNeeded st w.now = true) :
    stR w st = (authenticate w.env w.login1 w.now st).1 ∧
    ((stR w st).storedToken.truthy = false →
      (detect w req st).1 = ⟨401, .errorMsg notAuthenticatedMsg⟩ ∧
      detectPayloads (detect w req st).2.2 = []) ∧
    ((stR w st).storedToken.truthy = true →
      (detectPayloads (detect w req st).2.2).head? = some (firstPayload w req st file)) := by
  refine ⟨stR_stale w st hstale, ?_, ?_⟩ <;>
  rcases detect_cases w req st with
    ⟨h1, heq⟩ | ⟨h1, h2, heq⟩ | ⟨file0, d, h1, h2, h3, heq⟩ |
    ⟨file0, s, dm, em, h1, h2, h3, h4, heq⟩ | ⟨file0, dm, em, h1, h2, h3, h4, heq⟩ |
    ⟨file0, dm, em, d2, h1, h2, h3, h4, h5, heq⟩ |
    ⟨file0, dm, em, s2, dm2, em2, h1, h2, h3, h4, h5, heq⟩ <;>
  intro h <;>
  first
  | (exfalso; simp_all; done)
  | (rw [heq]; exact ⟨rfl, by simp⟩)
  | (rw [heq]; rw [hf] at h2; injection h2 with hfe; subst hfe; simp)

theorem stale_refresh_amended_witness :
    (detect wNoAuth reqC initialAuthState).1 = ⟨401, .errorMsg notAuthenticatedMsg⟩ ∧
    detectPayloads (detect wNoAuth reqC initialAuthState).2.2 = [] :=
  (stale_refresh_amended wNoAuth reqC initialAuthState fileC rfl (by decide)).2.1 (by decide)

/-- C5 counterexample: token present but 47 hours old, refresh fails
(store unchanged, no new token obtained) — yet `detect()` does not
fail fast: it sends the image upstream with the stale token and
returns 200. -/
theorem stale_refresh_cx :
    refreshNeeded stStale wStale.now = true ∧
    (authenticate wStale.env wStale.login1 wStale.now stStale).1 = stStale ∧
    (detect wStale reqC stStale).1 = ⟨200, .json bodyC⟩ ∧
    detectPayloads (detect wStale reqC stStale).2.2 ≠ [] := by decide

/-- C4 (amended): on each of the listed Authenticator failure modes —
missing configuration, network error / non-2xx login response (the
thrown axios error) — the credential store is left completely
unchanged, both for `authenticate` of `server.js`/`part_000` and for
the `POST /api/login` handler of `part_001`; and in every reachable
store state a present (truthy) token implies `tokenFetchedAt` is set.
(The converse half of the claimed invariant — never `fetchedAt`
without a token — fails on a 2xx login response that carries no token
field; see the counterexample.) -/
theorem credential_store_amended :
    (∀ (env : Env) (now : Int) (st : AuthState), (authenticate env none now st).1 = st) ∧
    (∀ (env : Env) (login : Option LoginBody) (now : Int) (st : AuthState),
      env.configured = false → (authenticate env login now st).1 = st) ∧
    (∀ (e k : Option String) (up : Option LoginBody) (m : String) (tok : JsVal),
      envTruthy e = false ∨ envTruthy k = false → (loginHandler e k up m tok).2 = tok) ∧
    (∀ (e k : Option String) (m : String) (tok : JsVal),
      (loginHandler e k none m tok).2 = tok) ∧
    (∀ st, ReachableAuth st → st.storedToken.truthy = true →
      st.tokenFetchedAt.isSome = true) := by
  refine ⟨?_, ?_, ?_, ?_, ?_⟩
  · intro env now st; unfold authenticate; split <;> rfl
  · intro env login now st h; simp [authenticate, h]
  · intro e k up m tok h; rcases h with h | h <;> simp [loginHandler, h]
  · intro e k m tok; unfold loginHandler; split <;> rfl
  · intro st hst
    induction hst with
    | init => intro h; exact absurd h (by decide)
    | step env login now st0 hr ih =>
        intro h
        by_cases hc : env.configured = true
        · cases login with
          | none => simp only [authenticate, hc, if_true] at h ⊢; exact ih h
          | some b => simp [authenticate, hc]
        · have hc2 : env.configured = false := by simpa using hc
          simp only [authenticate, hc2, Bool.false_eq_true, if_false] at h ⊢
          exact ih h

theorem credential_store_amended_witness :
    (authenticate envC none 7 stFresh).1 = stFresh ∧
    (loginHandler none (some "k") none "boom" (.str "keep")).2 = .str "keep" ∧
    (authenticate envC (some ⟨.str "t", .null⟩) 3 initialAuthState).1.tokenFetchedAt.isSome
      = true := by
  obtain ⟨h1, h2, h3, h4, h5⟩ := credential_store_amended
  exact ⟨h1 envC 7 stFresh,
    h3 none (some "k") none "boom" (.str "keep") (Or.inl rfl),
    h5 (authenticate envC (some ⟨.str "t", .null⟩) 3 initialAuthState).1
      (ReachableAuth.step envC (some ⟨.str "t", .null⟩) 3 initialAuthState ReachableAuth.init)
      (by decide)⟩

/-- C4 counterexample: a reachable store state in which `tokenFetchedAt`
is set while the token is absent (`undefined`, falsy): a 2xx login
response whose body has neither `access_token` nor `token` assigns
`storedToken = undefined` yet still sets `tokenFetchedAt = Date.now()`,
so "token and fetchedAt are set together, never one without the other"
fails on the code. -/
theorem credential_invariant_cx :
    ReachableAuth (authenticate envC (some noTokenBody) 5 initialAuthState).1 ∧
    (authenticate envC (some noTokenBody) 5 initialAuthState).1.storedToken = JsVal.undef ∧
    (authenticate envC (some noTokenBody) 5 initialAuthState).1.storedToken.truthy = false ∧
    (authenticate envC (some noTokenBody) 5 initialAuthState).1.tokenFetchedAt = some 5 :=
  ⟨ReachableAuth.step envC (some noTokenBody) 5 initialAuthState ReachableAuth.init,
    by decide, by decide, by decide⟩

/-- C7 (amended): an upload exceeding the 32 MiB ceiling is rejected by
the multer middleware before the handler runs — no upstream call (login
or detection) is attempted and the store is untouched — but the
response status is 500, Express's default for the multer size-limit
error, not 400. -/
theorem oversize_rejected_amended (w : World) (f : UploadedFile) (sf : Option String)
    (st : AuthState) (h : f.buffer.length > FILE_SIZE_LIMIT) :
    detectRoute w (some f) sf st = (⟨500, .errorMsg "File too large"⟩, st, []) := by
  simp [detectRoute, h]

theorem oversize_rejected_amended_witness :
    detectRoute wNoDb (some bigFile) none stFresh =
      (⟨500, .errorMsg "File too large"⟩, stFresh, []) :=
  oversize_rejected_amended wNoDb bigFile none stFresh
    (by simp [bigFile, List.length_replicate, Nat.lt_succ_self])

/-- C7 counterexample: a file one byte over the ceiling is rejected
with status 500 (not the claimed 400), though indeed before any
upstream call (the event trace is empty). -/
theorem oversize_status_cx :
    (detectRoute wSaveFail (some bigFile) none stFresh).1.status = 500 ∧
    (detectRoute wSaveFail (some bigFile) none stFresh).1.status ≠ 400 ∧
    (detectRoute wSaveFail (some bigFile) none stFresh).2.2 = [] := by
  have h : detectRoute wSaveFail (some bigFile) none stFresh =
      (⟨500, .errorMsg "File too large"⟩, stFresh, []) := by
    simp [detectRoute, bigFile, List.length_replicate, Nat.lt_succ_self]
  rw [h]
  exact ⟨rfl, by decide, rfl⟩

/-- C1: for every `detect()` call whose first upstream detection
attempt happens (a file is present and the store holds a token after
the initial refresh, stale entry or not) and is rejected with HTTP
401, the relay re-authenticates exactly once after that first attempt
(one login POST when configured, none possible otherwise) and, if the
store then holds a token, resubmits exactly once — every detection
payload of the call, first and retry alike, is built from the same
original image bytes, filename, sandbox flag and the same scanId — and
the outcome of that single retry, success or any failure, is the final
response; at most two detection POSTs ever occur. -/
theorem first401_single_retry (w : World) (req : Request) (st : AuthState)
    (file : UploadedFile) (dm : Option String) (em : String)
    (hf : req.file = some file) (htr : (stR w st).storedToken.truthy = true)
    (h401 : w.first = .err (some 401) dm em) :
    detectCount (detect w req st).2.2 ≤ 2 ∧
    (∀ p, p ∈ detectPayloads (detect w req st).2.2 →
      p.imageBytes = file.buffer ∧ p.filename = file.originalname ∧
      p.sandbox = (if req.sandboxField = some "true" then "true" else "false") ∧
      p.scanId = w.scanId) ∧
    loginCount (afterFirstDetect (detect w req st).2.2) =
      (if w.env.configured then 1 else 0) ∧
    ((stA w st).storedToken.truthy = false →
      detectCount (detect w req st).2.2 = 1 ∧
      (detect w req st).1 = ⟨401, .errorMsg "Re-authentication failed."⟩) ∧
    ((stA w st).storedToken.truthy = true →
      detectCount (detect w req st).2.2 = 2 ∧
      (∀ d2, w.retry = .ok d2 →
        (detect w req st).1 = (successResponse w file (sbOf req) d2).1) ∧
      (∀ s2 dm2 em2, w.retry = .err s2 dm2 em2 →
        (detect w req st).1 = errResponse s2 dm2 em2)) := by
  rcases detect_cases w req st with
    ⟨h1, heq⟩ | ⟨h1, h2, heq⟩ | ⟨file0, d, h1, h2, h3, heq⟩ |
    ⟨file0, s, dm0, em0, h1, h2, h3, h4, heq⟩ | ⟨file0, dm0, em0, h1, h2, h3, h4, heq⟩ |
    ⟨file0, dm0, em0, d2, h1, h2, h3, h4, h5, heq⟩ |
    ⟨file0, dm0, em0, s2, dm2, em2, h1, h2, h3, h4, h5, heq⟩
  · rw [htr] at h1; cases h1
  · rw [hf] at h2; cases h2
  · rw [h401] at h3; cases h3
  · rw [h401] at h3; injection h3 with hs _ _; exact absurd hs.symm h4
  · rw [hf] at h2; injection h2 with hfe; subst hfe
    rw [heq]
    refine ⟨?_, fun p hp => ?_, ?_, fun hA => ⟨?_, rfl⟩, fun hA => absurd hA (by simp [h4])⟩
    · simp [isDetectEvent, isLoginEvent]
    · simp [firstPayload, mkPayload, sbOf] at hp
      subst hp; simp [mkPayload]
    · simp only [List.append_assoc, List.singleton_append]
      rw [afterFirstDetect_evR]
      simp
    · simp [isDetectEvent, isLoginEvent]
  · rw [hf] at h2; injection h2 with hfe; subst hfe
    rw [heq]
    refine ⟨?_, fun p hp => ?_, ?_, fun hA => absurd h4 (by simp [hA]), fun hA => ⟨?_, ?_, ?_⟩⟩
    · simp [isDetectEvent, isLoginEvent]
    · simp [firstPayload, retryPayload, mkPayload, sbOf] at hp
      rcases hp with hp | hp <;> subst hp <;> simp [mkPayload]
    · simp only [List.append_assoc, List.singleton_append, List.cons_append]
      rw [afterFirstDetect_evR]
      simp [isLoginEvent]
    · simp [isDetectEvent, isLoginEvent]
    · intro d0 hr
      rw [h5] at hr; injection hr with hde; subst hde; rfl
    · intro s0 dm0x em0x hr
      rw [h5] at hr; cases hr
  · rw [hf] at h2; injection h2 with hfe; subst hfe
    rw [heq]
    refine ⟨?_, fun p hp => ?_, ?_, fun hA => absurd h4 (by simp [hA]), fun hA => ⟨?_, ?_, ?_⟩⟩
    · simp [isDetectEvent, isLoginEvent]
    · simp [firstPayload, retryPayload, mkPayload, sbOf] at hp
      rcases hp with hp | hp <;> subst hp <;> simp [mkPayload]
    · simp only [List.append_assoc, List.singleton_append, List.cons_append]
      rw [afterFirstDetect_evR]
      simp [isLoginEvent]
    · simp [isDetectEvent, isLoginEvent]
    · intro d0 hr
      rw [h5] at hr; cases hr
    · intro s0 dm0x em0x hr
      rw [h5] at hr; injection hr with hse hde hee; subst hse; subst hde; subst hee; rfl

theorem first401_single_retry_witness :
    detectCount (detect w401 reqC stFresh).2.2 ≤ 2 :=
  (first401_single_retry w401 reqC stFresh fileC none
    "Request failed with status code 401" rfl (by decide) rfl).1

end AIDetector
